import Mathlib

/-!
Shallow embedding of the ORAN xApp analytics core
(src/xApps/python/anomaly_detector.py, qos_traffic_steerer.py,
ml_resource_optimizer.py) together with theorems settling the
specification claims about it.

Python floats are modelled as exact rationals (ℚ) where the code only
uses field arithmetic and comparisons, and as real numbers (ℝ) where the
code takes a square root (`np.std`).  Python dicts are modelled as
functions into `Option`; `collections.deque(maxlen=c)` is modelled by
`dequeAppend c`.
-/

/-- `deque(maxlen=cap).append v`: append on the right, evicting from the
left whenever the length would exceed `cap`. -/
def dequeAppend {α : Type} (cap : ℕ) (l : List α) (v : α) : List α :=
  let l2 := l ++ [v]
  if cap < l2.length then l2.drop (l2.length - cap) else l2

/-- Python slice `l[-n:]`: the last `n` elements (all of `l` when it is
shorter than `n`). -/
def lastN {α : Type} (n : ℕ) (l : List α) : List α :=
  l.drop (l.length - n)

/-- `np.mean`: sum divided by length (0 on the empty list, since `x / 0 = 0`). -/
def mean {K : Type} [DivisionRing K] (l : List K) : K :=
  l.sum / (l.length : K)

/-- `np.var`: population variance, the mean of the squared deviations. -/
def pvariance {K : Type} [DivisionRing K] (l : List K) : K :=
  (l.map (fun x => (x - mean l) ^ 2)).sum / (l.length : K)

namespace AnomalyDetector

/-- `self.max_history_length` of anomaly_detector.py. -/
def max_history_length : ℕ := 200

/-- `self.anomaly_threshold` (Z-score threshold). -/
def anomaly_threshold : ℝ := 3

/-- `self.min_history_for_detection`. -/
def min_history_for_detection : ℕ := 30

/-- `self.alert_cooldown` in seconds. -/
def alert_cooldown : ℝ := 60

/-- Mutable state of `AnomalyDetectorXapp` relevant to detection. -/
structure DetectorState where
  metrics_history : String → Option (List ℝ)
  last_alert_time : String → Option ℝ
  anomalies_detected : ℕ
  anomaly_details : String → Option ℕ

/-- `update_metrics_history`: create the series if absent, then append with
`deque(maxlen=max_history_length)` semantics. -/
def update_metrics_history (h : String → Option (List ℝ)) (metric_name : String)
    (value : ℝ) : String → Option (List ℝ) :=
  Function.update h metric_name
    (some (dequeAppend max_history_length ((h metric_name).getD []) value))

/-- `detect_anomaly`: Z-score anomaly detection with per-metric alert
cooldown.  Returns `(isAnomaly, score)` and the successor state. -/
noncomputable def detect_anomaly (s : DetectorState) (metric_name : String)
    (current_value now : ℝ) : (Bool × ℝ) × DetectorState :=
  match s.metrics_history metric_name with
  | none => ((false, 0), s)
  | some history =>
    if history.length < min_history_for_detection then ((false, 0), s)
    else
      let mean_val := mean history
      let std_val := Real.sqrt (pvariance history)
      if std_val = 0 then ((false, 0), s)
      else
        let z_score := |current_value - mean_val| / std_val
        let last_alert := (s.last_alert_time metric_name).getD 0
        if z_score > anomaly_threshold ∧ now - last_alert > alert_cooldown then
          ((true, z_score),
            { s with
              last_alert_time := Function.update s.last_alert_time metric_name (some now)
              anomalies_detected := s.anomalies_detected + 1
              anomaly_details := Function.update s.anomaly_details metric_name
                (some ((s.anomaly_details metric_name).getD 0 + 1)) })
        else ((false, z_score), s)

end AnomalyDetector

/-- Folding `dequeAppend cap` over the inserted values, starting empty,
keeps exactly the most recent `cap` values. -/
theorem dequeAppend_lastN {α : Type} (cap : ℕ) (vs : List α) (v : α) :
    dequeAppend cap (lastN cap vs) v = lastN cap (vs ++ [v]) := by
  rcases lt_or_le vs.length cap with h | h
  · have h0 : vs.length - cap = 0 := by omega
    have h1 : vs.length + 1 - cap = 0 := by omega
    simp [dequeAppend, lastN, h0, h1, show ¬ cap < vs.length + 1 by omega]
  · rcases Nat.eq_zero_or_pos cap with hc | hc
    · subst hc
      simp [dequeAppend, lastN, List.drop_length]
    · have hdl : (List.drop (vs.length - cap) vs).length = cap := by
        simp only [List.length_drop]
        omega
      have hl2 : (List.drop (vs.length - cap) vs ++ [v]).length = cap + 1 := by
        simp [hdl]
      simp only [dequeAppend, lastN, hl2]
      rw [if_pos (Nat.lt_succ_self cap)]
      have hc1 : cap + 1 - cap = 1 := by omega
      rw [hc1]
      rw [List.drop_append_of_le_length (by rw [hdl]; exact hc)]
      simp only [List.length_append, List.length_singleton]
      rw [List.drop_append_of_le_length (by omega), List.drop_drop]
      congr 2
      omega

theorem foldl_dequeAppend {α : Type} (cap : ℕ) (vs : List α) :
    vs.foldl (dequeAppend cap) [] = lastN cap vs := by
  induction vs using List.reverseRecOn with
  | nil => simp [lastN]
  | append_singleton vs v ih =>
    rw [List.foldl_append, List.foldl_cons, List.foldl_nil, ih, dequeAppend_lastN]

/-- C5: a metric series built by repeated `dequeAppend cap` updates never
exceeds `cap` in length, and after inserting the values `vs` it holds
exactly the last `min (vs.length) cap` of them, oldest first; concretely,
with capacity 5, after the 8 updates 1..8 the window is `[4,5,6,7,8]`.
The detector's `update_metrics_history` applies exactly this mechanism
with the fixed capacity 200. -/
theorem metric_series_ring_buffer :
    (∀ (α : Type) (cap : ℕ) (vs : List α),
        (vs.foldl (dequeAppend cap) []).length = min vs.length cap ∧
        vs.foldl (dequeAppend cap) [] = vs.drop (vs.length - cap)) ∧
    ([1, 2, 3, 4, 5, 6, 7, 8].foldl (dequeAppend 5) ([] : List ℚ)
        = [4, 5, 6, 7, 8]) ∧
    (∀ (h : String → Option (List ℝ)) (name : String) (v : ℝ),
        (AnomalyDetector.update_metrics_history h name v) name =
          some (dequeAppend AnomalyDetector.max_history_length
            ((h name).getD []) v)) := by
  refine ⟨fun α cap vs => ?_, by decide, fun h name v => ?_⟩
  · rw [foldl_dequeAppend]
    refine ⟨?_, rfl⟩
    unfold lastN
    simp [List.length_drop]
    omega
  · unfold AnomalyDetector.update_metrics_history
    simp [Function.update]

theorem pvariance_nonneg (l : List ℝ) : 0 ≤ pvariance l := by
  unfold pvariance
  apply div_nonneg
  · apply List.sum_nonneg
    intro x hx
    obtain ⟨y, _, rfl⟩ := List.mem_map.mp hx
    positivity
  · exact Nat.cast_nonneg _

theorem mean_replicate (n : ℕ) (c : ℝ) (hn : n ≠ 0) :
    mean (List.replicate n c) = c := by
  unfold mean
  rw [List.sum_replicate, List.length_replicate, nsmul_eq_mul,
    mul_div_cancel_left₀ c (Nat.cast_ne_zero.mpr hn)]

theorem pvariance_replicate (n : ℕ) (c : ℝ) (hn : n ≠ 0) :
    pvariance (List.replicate n c) = 0 := by
  unfold pvariance
  rw [mean_replicate n c hn]
  simp

namespace AnomalyDetector

/-- Empty detector state: no history, no alerts. -/
def emptyDetector : DetectorState :=
  ⟨fun _ => none, fun _ => none, 0, fun _ => none⟩

/-- State whose only window, under key "k", is 30 copies of 5. -/
def constWindowState : DetectorState :=
  ⟨fun n => if n = "k" then some (List.replicate 30 (5 : ℝ)) else none,
    fun _ => none, 0, fun _ => none⟩

/-- The controlled window of the alert scenario: 15 eights and 15 twelves,
so mean 10, population variance 4, standard deviation 2. -/
def wWindow : List ℝ := List.replicate 15 (8 : ℝ) ++ List.replicate 15 12

/-- Detector state holding `wWindow` under key "m" and no alert history. -/
def alertState : DetectorState :=
  ⟨fun n => if n = "m" then some wWindow else none,
    fun _ => none, 0, fun _ => none⟩

end AnomalyDetector

theorem wWindow_mean : mean AnomalyDetector.wWindow = 10 := by
  unfold mean AnomalyDetector.wWindow
  simp only [List.sum_append, List.sum_replicate, List.length_append,
    List.length_replicate, nsmul_eq_mul]
  norm_num

theorem wWindow_pvariance : pvariance AnomalyDetector.wWindow = 4 := by
  unfold pvariance
  rw [wWindow_mean]
  unfold AnomalyDetector.wWindow
  simp only [List.map_append, List.map_replicate, List.sum_append,
    List.sum_replicate, List.length_append, List.length_replicate, nsmul_eq_mul]
  norm_num

theorem sqrt_four : Real.sqrt 4 = 2 := by
  rw [show (4 : ℝ) = 2 ^ 2 by norm_num]
  exact Real.sqrt_sq (by norm_num)

/-- C6: `detect_anomaly` returns `(false, 0.0)` whenever the key's window
holds fewer than `min_history_for_detection` (30) observations (including
an unknown key, whose window is empty), and likewise whenever the window's
population variance — hence its population standard deviation — is exactly
zero, regardless of the current value; in both cases the state is
untouched, and the division by the standard deviation is never reached. -/
theorem detect_anomaly_guards :
    ∀ (s : AnomalyDetector.DetectorState) (name : String) (v now : ℝ),
      ((s.metrics_history name).getD []).length <
          AnomalyDetector.min_history_for_detection ∨
        pvariance ((s.metrics_history name).getD []) = 0 →
      AnomalyDetector.detect_anomaly s name v now = ((false, 0), s) := by
  intro s name v now h
  cases hm : s.metrics_history name with
  | none => simp [AnomalyDetector.detect_anomaly, hm]
  | some hist =>
    rw [hm, Option.getD_some] at h
    simp only [AnomalyDetector.detect_anomaly, hm]
    rcases h with h | h
    · rw [if_pos h]
    · by_cases hl : hist.length < AnomalyDetector.min_history_for_detection
      · rw [if_pos hl]
      · rw [if_neg hl]
        simp [h, Real.sqrt_zero]

/-- Witness for C6: a 30-sample constant window (all 5) with the far-away
current value 100 still yields `(false, 0.0)` and an unchanged state. -/
theorem detect_anomaly_guards_witness :
    AnomalyDetector.detect_anomaly AnomalyDetector.constWindowState "k" 100 0 =
      ((false, 0), AnomalyDetector.constWindowState) := by
  apply detect_anomaly_guards
  refine Or.inr ?_
  have h : (AnomalyDetector.constWindowState.metrics_history "k").getD [] =
      List.replicate 30 (5 : ℝ) := by
    simp [AnomalyDetector.constWindowState]
  rw [h]
  exact pvariance_replicate 30 5 (by norm_num)

/-- C9: `detect_anomaly` mutates nothing on any path returning `false`
(unknown key, short history, zero deviation, score within threshold, or
cooldown suppression); on the path returning `true` the metric windows are
untouched and exactly the alert time, the global counter and the per-key
counter change. -/
theorem detect_anomaly_frame :
    ∀ (s : AnomalyDetector.DetectorState) (name : String) (v now : ℝ),
      ((AnomalyDetector.detect_anomaly s name v now).1.1 = false →
        (AnomalyDetector.detect_anomaly s name v now).2 = s) ∧
      ((AnomalyDetector.detect_anomaly s name v now).1.1 = true →
        (AnomalyDetector.detect_anomaly s name v now).2.metrics_history =
            s.metrics_history ∧
          (AnomalyDetector.detect_anomaly s name v now).2.last_alert_time =
            Function.update s.last_alert_time name (some now) ∧
          (AnomalyDetector.detect_anomaly s name v now).2.anomalies_detected =
            s.anomalies_detected + 1 ∧
          (AnomalyDetector.detect_anomaly s name v now).2.anomaly_details =
            Function.update s.anomaly_details name
              (some ((s.anomaly_details name).getD 0 + 1))) := by
  intro s name v now
  cases hm : s.metrics_history name with
  | none => simp [AnomalyDetector.detect_anomaly, hm]
  | some hist =>
    simp only [AnomalyDetector.detect_anomaly, hm]
    split_ifs <;> simp

/-- Witness for C9: on the empty detector state the call returns `false`
and, by the frame theorem, leaves the state exactly as it was. -/
theorem detect_anomaly_frame_witness :
    (AnomalyDetector.detect_anomaly AnomalyDetector.emptyDetector "k" 1 2).2 =
      AnomalyDetector.emptyDetector := by
  apply (detect_anomaly_frame AnomalyDetector.emptyDetector "k" 1 2).1
  simp [AnomalyDetector.detect_anomaly, AnomalyDetector.emptyDetector]

/-- C4: with at least 30 samples in the window and non-zero population
variance, `detect_anomaly` computes `score = |current - mean| / stddev`;
when the score exceeds the threshold and `now - lastAlertTime > 60` it
records `now` as the new alert time (also bumping the counters) and
returns `(true, score)`; when the score exceeds the threshold but the
cooldown has not elapsed it returns `(false, score)` with the same score
and leaves the state unchanged. -/
theorem detect_anomaly_alert (s : AnomalyDetector.DetectorState) (name : String)
    (v now : ℝ) (hist : List ℝ) (hm : s.metrics_history name = some hist)
    (hlen : ¬ hist.length < AnomalyDetector.min_history_for_detection)
    (hvar : pvariance hist ≠ 0) :
    (|v - mean hist| / Real.sqrt (pvariance hist) >
        AnomalyDetector.anomaly_threshold →
      now - (s.last_alert_time name).getD 0 > AnomalyDetector.alert_cooldown →
      AnomalyDetector.detect_anomaly s name v now =
        ((true, |v - mean hist| / Real.sqrt (pvariance hist)),
          { s with
            last_alert_time := Function.update s.last_alert_time name (some now)
            anomalies_detected := s.anomalies_detected + 1
            anomaly_details := Function.update s.anomaly_details name
              (some ((s.anomaly_details name).getD 0 + 1)) })) ∧
    (|v - mean hist| / Real.sqrt (pvariance hist) >
        AnomalyDetector.anomaly_threshold →
      ¬ (now - (s.last_alert_time name).getD 0 >
          AnomalyDetector.alert_cooldown) →
      AnomalyDetector.detect_anomaly s name v now =
        ((false, |v - mean hist| / Real.sqrt (pvariance hist)), s)) := by
  have hstd : Real.sqrt (pvariance hist) ≠ 0 := by
    rw [Ne, Real.sqrt_eq_zero']
    push_neg
    exact lt_of_le_of_ne (pvariance_nonneg hist) (Ne.symm hvar)
  constructor
  · intro hz hc
    simp only [AnomalyDetector.detect_anomaly, hm]
    rw [if_neg hlen, if_neg hstd, if_pos ⟨hz, hc⟩]
  · intro hz hc
    simp only [AnomalyDetector.detect_anomaly, hm]
    rw [if_neg hlen, if_neg hstd, if_neg (fun hp => hc hp.2)]

/-- Witness for C4: on the window of 15 eights and 15 twelves (mean 10,
stddev 2) and current value 20, the first call scores 5.0 and alerts; an
immediate second call for the same key is cooled down and returns
`(false, 5.0)`. -/
theorem detect_anomaly_alert_witness :
    (AnomalyDetector.detect_anomaly AnomalyDetector.alertState "m" 20 100).1 =
        (true, 5) ∧
      (AnomalyDetector.detect_anomaly
          ((AnomalyDetector.detect_anomaly AnomalyDetector.alertState "m" 20 100).2)
          "m" 20 100).1 = (false, 5) := by
  have hm : AnomalyDetector.alertState.metrics_history "m" =
      some AnomalyDetector.wWindow := by
    simp [AnomalyDetector.alertState]
  have hlen : ¬ AnomalyDetector.wWindow.length <
      AnomalyDetector.min_history_for_detection := by
    simp [AnomalyDetector.wWindow, AnomalyDetector.min_history_for_detection]
  have hvar : pvariance AnomalyDetector.wWindow ≠ 0 := by
    rw [wWindow_pvariance]
    norm_num
  have hz5 : |(20 : ℝ) - mean AnomalyDetector.wWindow| /
      Real.sqrt (pvariance AnomalyDetector.wWindow) = 5 := by
    rw [wWindow_mean, wWindow_pvariance, sqrt_four]
    norm_num
  have hzgt : |(20 : ℝ) - mean AnomalyDetector.wWindow| /
      Real.sqrt (pvariance AnomalyDetector.wWindow) >
        AnomalyDetector.anomaly_threshold := by
    rw [hz5]
    norm_num [AnomalyDetector.anomaly_threshold]
  have h1 := (detect_anomaly_alert AnomalyDetector.alertState "m" 20 100
      AnomalyDetector.wWindow hm hlen hvar).1 hzgt
    (by norm_num [AnomalyDetector.alertState, AnomalyDetector.alert_cooldown])
  have hm2 : ((AnomalyDetector.detect_anomaly AnomalyDetector.alertState
      "m" 20 100).2).metrics_history "m" = some AnomalyDetector.wWindow := by
    rw [h1]
    simp [AnomalyDetector.alertState]
  have hlast : (((AnomalyDetector.detect_anomaly AnomalyDetector.alertState
      "m" 20 100).2).last_alert_time "m").getD 0 = 100 := by
    rw [h1]
    simp [Function.update_same]
  have h2 := (detect_anomaly_alert
      ((AnomalyDetector.detect_anomaly AnomalyDetector.alertState "m" 20 100).2)
      "m" 20 100 AnomalyDetector.wWindow hm2 hlen hvar).2 hzgt
    (by rw [hlast]; norm_num [AnomalyDetector.alert_cooldown])
  constructor
  · rw [h1]
    simp [hz5]
  · rw [h2]
    simp [hz5]

/-- A decoded measurement snapshot: metric name to list of reported
values, `none` when the metric is absent from the sample. -/
abbrev MetricsData : Type := String → Option (List ℚ)

/-- Metric key "DRB.UEThpDl". -/
def thpDl : String := "DRB.UEThpDl"

/-- Metric key "DRB.UEThpUl". -/
def thpUl : String := "DRB.UEThpUl"

/-- Metric key "RRC.ConnEstabSucc". -/
def connEstab : String := "RRC.ConnEstabSucc"

namespace QoSTrafficSteerer

/-- The traffic classes of qos_traffic_steerer.py, plus 'unknown'. -/
inductive TrafficType where
  | voice
  | video
  | gaming
  | web
  | file_transfer
  | unknown
deriving DecidableEq

/-- One entry of `self.qos_profiles`. -/
structure QoSProfile where
  latency_ms : ℚ
  bandwidth_mbps : ℚ
  priority : ℕ

/-- `self.qos_profiles`: dict lookup, `none` for 'unknown' (not a key). -/
def qos_profiles : TrafficType → Option QoSProfile
  | .voice => some ⟨10, 1 / 10, 1⟩
  | .video => some ⟨30, 5, 2⟩
  | .gaming => some ⟨20, 1, 1⟩
  | .web => some ⟨100, 10, 3⟩
  | .file_transfer => some ⟨500, 50, 4⟩
  | .unknown => none

/-- `self.load_threshold`. -/
def load_threshold : ℚ := 8 / 10

/-- `self.qos_violation_threshold`. -/
def qos_violation_threshold : ℕ := 3

/-- `self.steering_cooldown` in seconds. -/
def steering_cooldown : ℚ := 120

/-- The loop of `classify_traffic` collecting `metrics[key]` over the
snapshots where `key` is present (`extend` concatenates the lists). -/
def extract_throughputs (snaps : List MetricsData) (key : String) : List ℚ :=
  (snaps.map (fun m => (m key).getD [])).flatten

/-- `classify_traffic`: append the snapshot to the entity's bounded
history (maxlen 50), require at least 10 entries, aggregate DL/UL
throughputs over the last 10 snapshots, and run the ordered
first-match-wins rule chain.  Returns the class and the updated history. -/
def classify_traffic (hist : List MetricsData) (metrics_data : MetricsData) :
    TrafficType × List MetricsData :=
  let hist2 := dequeAppend 50 hist metrics_data
  if hist2.length < 10 then (.unknown, hist2)
  else
    let dl_throughputs := extract_throughputs (lastN 10 hist2) thpDl
    let ul_throughputs := extract_throughputs (lastN 10 hist2) thpUl
    if dl_throughputs = [] ∨ ul_throughputs = [] then (.unknown, hist2)
    else
      let avg_dl := mean dl_throughputs
      let avg_ul := mean ul_throughputs
      let dl_variance :=
        if 1 < dl_throughputs.length then pvariance dl_throughputs else 0
      let ul_variance :=
        if 1 < ul_throughputs.length then pvariance ul_throughputs else 0
      if avg_dl < 1 / 2 ∧ avg_ul < 1 / 2 ∧ dl_variance < 1 ∧ ul_variance < 1 then
        (.voice, hist2)
      else if 20 < avg_dl ∧ 100 < dl_variance then (.video, hist2)
      else if 2 < avg_ul ∧ 10 < ul_variance then (.gaming, hist2)
      else if 1 < avg_dl ∧ avg_dl < 20 then (.web, hist2)
      else if 50 < avg_dl then (.file_transfer, hist2)
      else (.unknown, hist2)

/-- `check_qos_violations`: for a known traffic type, flag a violation
(and bump the per-entity counter once) when the summed DL throughput is
below 50% of the profile's bandwidth, or else when the summed UL
throughput is below 30% of it.  Returns the flag and the new counter. -/
def check_qos_violations (traffic_type : TrafficType) (metrics_data : MetricsData)
    (violations : ℕ) : Bool × ℕ :=
  if traffic_type = .unknown then (false, violations)
  else
    match qos_profiles traffic_type with
    | none => (false, violations)
    | some qos_profile =>
      let ul_check : Bool × ℕ :=
        match metrics_data thpUl with
        | some ul =>
          if ul ≠ [] ∧ ul.sum < qos_profile.bandwidth_mbps * (3 / 10) then
            (true, violations + 1)
          else (false, violations)
        | none => (false, violations)
      match metrics_data thpDl with
      | some dl =>
        if dl ≠ [] ∧ dl.sum < qos_profile.bandwidth_mbps * (1 / 2) then
          (true, violations + 1)
        else ul_check
      | none => ul_check

/-- The load indicators collected by `evaluate_cell_load`, in order:
normalized DL throughput (capped at 1), normalized UL throughput (capped
at 1), and the connection-success indicator `1 - rate/100` (0 when the
rate is not positive). -/
def load_indicators (metrics_data : MetricsData) : List ℚ :=
  (match metrics_data thpDl with
    | some dl => [min (dl.sum / 1000) 1]
    | none => []) ++
  (match metrics_data thpUl with
    | some ul => [min (ul.sum / 1000) 1]
    | none => []) ++
  (match metrics_data connEstab with
    | some l => [if 0 < l.headD 0 then 1 - l.headD 0 / 100 else 0]
    | none => [])

/-- `evaluate_cell_load`: the mean of the collected load indicators, 0.0
when no load-relevant metric is present. -/
def evaluate_cell_load (metrics_data : MetricsData) : ℚ :=
  if load_indicators metrics_data = [] then 0
  else mean (load_indicators metrics_data)

/-- Per-entity steering state of `QoSTrafficSteererXapp`. -/
structure SteererState where
  ue_qos_violations : String → ℕ
  last_steering_time : String → Option ℚ

/-- `should_steer_ue`: cooldown gate, violation-count gate, load gate and
priority gate, in the order of the source. -/
def should_steer_ue (s : SteererState) (ue_id : String) (current_cell_load : ℚ)
    (traffic_type : TrafficType) (now : ℚ) : Bool :=
  let last_steer := (s.last_steering_time ue_id).getD 0
  if now - last_steer < steering_cooldown then false
  else if s.ue_qos_violations ue_id < qos_violation_threshold then false
  else if load_threshold < current_cell_load then
    if ((qos_profiles traffic_type).map QoSProfile.priority).getD 5 ≤ 2 then true
    else false
  else false

/-- The steering decision of `my_subscription_callback`: when
`should_steer_ue` fires, record the steering time and reset the entity's
violation counter to 0. -/
def steering_step (s : SteererState) (ue_id : String) (cell_load : ℚ)
    (traffic_type : TrafficType) (now : ℚ) : Bool × SteererState :=
  if should_steer_ue s ue_id cell_load traffic_type now then
    (true,
      { s with
        last_steering_time := Function.update s.last_steering_time ue_id (some now)
        ue_qos_violations := Function.update s.ue_qos_violations ue_id 0 })
  else (false, s)

end QoSTrafficSteerer

namespace QoSTrafficSteerer

/-- A steerer state ready to fire: the entity has exactly the threshold
number of violations and has never been steered before. -/
def steerReadyState : SteererState :=
  ⟨fun _ => 3, fun _ => none⟩

theorem should_steer_iff (s : SteererState) (ue_id : String) (load : ℚ)
    (t : TrafficType) (now : ℚ) :
    should_steer_ue s ue_id load t now = true ↔
      (qos_violation_threshold ≤ s.ue_qos_violations ue_id ∧
        load_threshold < load ∧
        ((qos_profiles t).map QoSProfile.priority).getD 5 ≤ 2 ∧
        steering_cooldown ≤ now - (s.last_steering_time ue_id).getD 0) := by
  simp only [should_steer_ue]
  by_cases h1 : now - (s.last_steering_time ue_id).getD 0 < steering_cooldown
  · rw [if_pos h1]
    simp only [Bool.false_eq_true, false_iff]
    rintro ⟨-, -, -, hc⟩
    exact absurd hc (not_le.mpr h1)
  · rw [if_neg h1]
    by_cases h2 : s.ue_qos_violations ue_id < qos_violation_threshold
    · rw [if_pos h2]
      simp only [Bool.false_eq_true, false_iff]
      rintro ⟨hv, -, -, -⟩
      omega
    · rw [if_neg h2]
      by_cases h3 : load_threshold < load
      · rw [if_pos h3]
        by_cases h4 : ((qos_profiles t).map QoSProfile.priority).getD 5 ≤ 2
        · rw [if_pos h4]
          simp only [true_iff]
          exact ⟨by omega, h3, h4, not_lt.mp h1⟩
        · rw [if_neg h4]
          simp only [Bool.false_eq_true, false_iff]
          rintro ⟨-, -, hp, -⟩
          exact h4 hp
      · rw [if_neg h3]
        simp only [Bool.false_eq_true, false_iff]
        rintro ⟨-, hl, -, -⟩
        exact h3 hl

end QoSTrafficSteerer

/-- C1 counterexample: with the violation count at the threshold, an
overloaded cell, priority-1 voice traffic, and `now - last_steer` equal
to exactly 120 seconds, the code emits a steering recommendation although
the claimed strict cooldown condition `now - last > 120` is false — so
the steering cooldown is not identical in mechanism to the strict
anomaly-alert cooldown. -/
theorem steering_gate_counterexample :
    (QoSTrafficSteerer.steering_step QoSTrafficSteerer.steerReadyState "ue1"
        (9 / 10) QoSTrafficSteerer.TrafficType.voice 120).1 = true ∧
      QoSTrafficSteerer.qos_violation_threshold ≤
        QoSTrafficSteerer.steerReadyState.ue_qos_violations "ue1" ∧
      QoSTrafficSteerer.load_threshold < 9 / 10 ∧
      ((QoSTrafficSteerer.qos_profiles QoSTrafficSteerer.TrafficType.voice).map
          QoSTrafficSteerer.QoSProfile.priority).getD 5 ≤ 2 ∧
      ¬ ((120 : ℚ) -
          (QoSTrafficSteerer.steerReadyState.last_steering_time "ue1").getD 0 >
            QoSTrafficSteerer.steering_cooldown) := by
  have hss := (QoSTrafficSteerer.should_steer_iff QoSTrafficSteerer.steerReadyState
      "ue1" (9 / 10) QoSTrafficSteerer.TrafficType.voice 120).mpr
    ⟨by norm_num [QoSTrafficSteerer.steerReadyState,
        QoSTrafficSteerer.qos_violation_threshold],
      by norm_num [QoSTrafficSteerer.load_threshold],
      by simp [QoSTrafficSteerer.qos_profiles],
      by norm_num [QoSTrafficSteerer.steerReadyState,
        QoSTrafficSteerer.steering_cooldown]⟩
  refine ⟨?_, ?_, ?_, ?_, ?_⟩
  · unfold QoSTrafficSteerer.steering_step
    rw [if_pos hss]
  · norm_num [QoSTrafficSteerer.steerReadyState,
      QoSTrafficSteerer.qos_violation_threshold]
  · norm_num [QoSTrafficSteerer.load_threshold]
  · simp [QoSTrafficSteerer.qos_profiles]
  · norm_num [QoSTrafficSteerer.steerReadyState, QoSTrafficSteerer.steering_cooldown]

/-- C1 amended: a steering recommendation fires exactly when the entity's
violation count has reached the threshold (3), the cell load strictly
exceeds the load threshold (0.8), the classified type's priority is at
most 2, and `now - last_steer` is at least (not strictly greater than)
the 120-second cooldown; at that moment the entity's violation counter is
reset to 0 and the steering time is recorded as `now`. -/
theorem steering_gate_amended :
    ∀ (s : QoSTrafficSteerer.SteererState) (ue_id : String) (cell_load : ℚ)
      (t : QoSTrafficSteerer.TrafficType) (now : ℚ),
      ((QoSTrafficSteerer.steering_step s ue_id cell_load t now).1 = true ↔
        (QoSTrafficSteerer.qos_violation_threshold ≤ s.ue_qos_violations ue_id ∧
          QoSTrafficSteerer.load_threshold < cell_load ∧
          ((QoSTrafficSteerer.qos_profiles t).map
              QoSTrafficSteerer.QoSProfile.priority).getD 5 ≤ 2 ∧
          QoSTrafficSteerer.steering_cooldown ≤
            now - (s.last_steering_time ue_id).getD 0)) ∧
      ((QoSTrafficSteerer.steering_step s ue_id cell_load t now).1 = true →
        (QoSTrafficSteerer.steering_step s ue_id cell_load t now).2.ue_qos_violations
            ue_id = 0 ∧
          (QoSTrafficSteerer.steering_step s ue_id cell_load t now).2.last_steering_time
            ue_id = some now) ∧
      ((QoSTrafficSteerer.steering_step s ue_id cell_load t now).1 = false →
        (QoSTrafficSteerer.steering_step s ue_id cell_load t now).2 = s) := by
  intro s ue_id cell_load t now
  have hiff := QoSTrafficSteerer.should_steer_iff s ue_id cell_load t now
  unfold QoSTrafficSteerer.steering_step
  by_cases h : QoSTrafficSteerer.should_steer_ue s ue_id cell_load t now = true
  · rw [if_pos h]
    refine ⟨?_, ?_, ?_⟩
    · simpa using hiff.mp h
    · intro _
      exact ⟨by simp [Function.update_same], by simp [Function.update_same]⟩
    · intro hfalse
      simp at hfalse
  · rw [if_neg h]
    refine ⟨?_, ?_, ?_⟩
    · simp only [Bool.false_eq_true, false_iff]
      intro hr
      exact h (hiff.mpr hr)
    · intro hfalse
      simp at hfalse
    · intro _
      rfl

/-- Witness for the amended C1: at `now = 200` with no prior steering,
three violations, load 0.9 and voice traffic, the recommendation fires,
the counter resets to 0 and the steering time 200 is recorded. -/
theorem steering_gate_amended_witness :
    (QoSTrafficSteerer.steering_step QoSTrafficSteerer.steerReadyState "ue1"
        (9 / 10) QoSTrafficSteerer.TrafficType.voice 200).1 = true ∧
      (QoSTrafficSteerer.steering_step QoSTrafficSteerer.steerReadyState "ue1"
          (9 / 10) QoSTrafficSteerer.TrafficType.voice 200).2.ue_qos_violations
        "ue1" = 0 ∧
      (QoSTrafficSteerer.steering_step QoSTrafficSteerer.steerReadyState "ue1"
          (9 / 10) QoSTrafficSteerer.TrafficType.voice 200).2.last_steering_time
        "ue1" = some 200 := by
  have h := steering_gate_amended QoSTrafficSteerer.steerReadyState "ue1"
    (9 / 10) QoSTrafficSteerer.TrafficType.voice 200
  have hfire := h.1.mpr
    ⟨by norm_num [QoSTrafficSteerer.steerReadyState,
        QoSTrafficSteerer.qos_violation_threshold],
      by norm_num [QoSTrafficSteerer.load_threshold],
      by simp [QoSTrafficSteerer.qos_profiles],
      by norm_num [QoSTrafficSteerer.steerReadyState,
        QoSTrafficSteerer.steering_cooldown]⟩
  exact ⟨hfire, (h.2.1 hfire).1, (h.2.1 hfire).2⟩

theorem length_dequeAppend {α : Type} (cap : ℕ) (l : List α) (v : α) :
    (dequeAppend cap l v).length = min (l.length + 1) cap := by
  simp only [dequeAppend]
  split_ifs with h <;>
    simp only [List.length_drop, List.length_append, List.length_singleton] at h ⊢ <;>
    omega

namespace QoSTrafficSteerer

/-- Snapshot with DL throughput 20 and UL throughput 1 (the boundary of
the claimed Web rule). -/
def mdEdge : MetricsData :=
  fun s => if s = thpDl then some [20] else if s = thpUl then some [1] else none

/-- Nine prior copies of `mdEdge` in the traffic history. -/
def histEdge : List MetricsData := List.replicate 9 mdEdge

/-- Snapshot with DL throughput 10 and UL throughput 1 (inside the Web
band). -/
def mdWeb : MetricsData :=
  fun s => if s = thpDl then some [10] else if s = thpUl then some [1] else none

/-- Nine prior copies of `mdWeb` in the traffic history. -/
def histWeb : List MetricsData := List.replicate 9 mdWeb

/-- Snapshot carrying only DL throughput, no UL metric at all. -/
def mdDlOnly : MetricsData := fun s => if s = thpDl then some [30] else none

/-- Ten prior copies of `mdDlOnly` in the traffic history. -/
def histDlOnly : List MetricsData := List.replicate 10 mdDlOnly

end QoSTrafficSteerer

/-- C2 counterexample: ten snapshots with constant DL throughput 20 and
UL throughput 1 satisfy `1 <= avgDl <= 20` and none of the Voice, Video
or Gaming rules, yet `classify_traffic` returns 'unknown', not Web — the
code's Web rule is `1 < avgDl < 20`, strict on both ends. -/
theorem classify_web_counterexample :
    (1 : ℚ) ≤ mean (QoSTrafficSteerer.extract_throughputs
        (lastN 10 (dequeAppend 50 QoSTrafficSteerer.histEdge
          QoSTrafficSteerer.mdEdge)) thpDl) ∧
      mean (QoSTrafficSteerer.extract_throughputs
        (lastN 10 (dequeAppend 50 QoSTrafficSteerer.histEdge
          QoSTrafficSteerer.mdEdge)) thpDl) ≤ 20 ∧
      ¬ (mean (QoSTrafficSteerer.extract_throughputs
          (lastN 10 (dequeAppend 50 QoSTrafficSteerer.histEdge
            QoSTrafficSteerer.mdEdge)) thpDl) < 1 / 2) ∧
      ¬ (20 < mean (QoSTrafficSteerer.extract_throughputs
          (lastN 10 (dequeAppend 50 QoSTrafficSteerer.histEdge
            QoSTrafficSteerer.mdEdge)) thpDl)) ∧
      ¬ (2 < mean (QoSTrafficSteerer.extract_throughputs
          (lastN 10 (dequeAppend 50 QoSTrafficSteerer.histEdge
            QoSTrafficSteerer.mdEdge)) thpUl)) ∧
      (QoSTrafficSteerer.classify_traffic QoSTrafficSteerer.histEdge
          QoSTrafficSteerer.mdEdge).1 = QoSTrafficSteerer.TrafficType.unknown := by
  have hdl : QoSTrafficSteerer.extract_throughputs
      (lastN 10 (dequeAppend 50 QoSTrafficSteerer.histEdge
        QoSTrafficSteerer.mdEdge)) thpDl =
      [20, 20, 20, 20, 20, 20, 20, 20, 20, 20] := rfl
  have hul : QoSTrafficSteerer.extract_throughputs
      (lastN 10 (dequeAppend 50 QoSTrafficSteerer.histEdge
        QoSTrafficSteerer.mdEdge)) thpUl =
      [1, 1, 1, 1, 1, 1, 1, 1, 1, 1] := rfl
  have hmdl : mean ([20, 20, 20, 20, 20, 20, 20, 20, 20, 20] : List ℚ) = 20 := by
    norm_num [mean]
  have hmul : mean ([1, 1, 1, 1, 1, 1, 1, 1, 1, 1] : List ℚ) = 1 := by
    norm_num [mean]
  refine ⟨?_, ?_, ?_, ?_, ?_, ?_⟩
  · rw [hdl, hmdl]; norm_num
  · rw [hdl, hmdl]
  · rw [hdl, hmdl]; norm_num
  · rw [hdl, hmdl]; norm_num
  · rw [hul, hmul]; norm_num
  · have h10 : ¬ (dequeAppend 50 QoSTrafficSteerer.histEdge
        QoSTrafficSteerer.mdEdge).length < 10 := by
      rw [length_dequeAppend]
      norm_num [QoSTrafficSteerer.histEdge]
    simp only [QoSTrafficSteerer.classify_traffic]
    rw [if_neg h10,
      if_neg (not_or.mpr ⟨by rw [hdl]; simp, by rw [hul]; simp⟩)]
    rw [hdl, hul, hmdl, hmul]
    norm_num [pvariance, mean]

/-- C2 amended: with at least 10 history entries after the append, both
aggregate throughput lists non-empty, and the Voice, Video and Gaming
rules (applied in this fixed order, first match wins) all failing,
`classify_traffic` returns Web exactly when `1 < avgDl < 20` with both
inequalities strict (the claim's inclusive bounds `1 <= avgDl <= 20` fail
at the endpoints). -/
theorem classify_web_amended :
    ∀ (hist : List MetricsData) (md : MetricsData) (dl ul : List ℚ),
      dl = QoSTrafficSteerer.extract_throughputs
        (lastN 10 (dequeAppend 50 hist md)) thpDl →
      ul = QoSTrafficSteerer.extract_throughputs
        (lastN 10 (dequeAppend 50 hist md)) thpUl →
      10 ≤ (dequeAppend 50 hist md).length →
      dl ≠ [] → ul ≠ [] →
      ¬ (mean dl < 1 / 2 ∧ mean ul < 1 / 2 ∧
          (if 1 < dl.length then pvariance dl else 0) < 1 ∧
          (if 1 < ul.length then pvariance ul else 0) < 1) →
      ¬ (20 < mean dl ∧ 100 < (if 1 < dl.length then pvariance dl else 0)) →
      ¬ (2 < mean ul ∧ 10 < (if 1 < ul.length then pvariance ul else 0)) →
      1 < mean dl → mean dl < 20 →
      (QoSTrafficSteerer.classify_traffic hist md).1 =
        QoSTrafficSteerer.TrafficType.web := by
  intro hist md dl ul hdl hul h10 hdlne hulne h1 h2 h3 h4 h5
  subst hdl
  subst hul
  simp only [QoSTrafficSteerer.classify_traffic]
  rw [if_neg (not_lt.mpr h10), if_neg (not_or.mpr ⟨hdlne, hulne⟩),
    if_neg h1, if_neg h2, if_neg h3, if_pos ⟨h4, h5⟩]

/-- Witness for the amended C2: ten snapshots of DL 10 / UL 1 fail rules
1–3, have `1 < avgDl = 10 < 20`, and classify as Web. -/
theorem classify_web_amended_witness :
    (QoSTrafficSteerer.classify_traffic QoSTrafficSteerer.histWeb
        QoSTrafficSteerer.mdWeb).1 = QoSTrafficSteerer.TrafficType.web := by
  have hdl : QoSTrafficSteerer.extract_throughputs
      (lastN 10 (dequeAppend 50 QoSTrafficSteerer.histWeb
        QoSTrafficSteerer.mdWeb)) thpDl =
      [10, 10, 10, 10, 10, 10, 10, 10, 10, 10] := rfl
  have hul : QoSTrafficSteerer.extract_throughputs
      (lastN 10 (dequeAppend 50 QoSTrafficSteerer.histWeb
        QoSTrafficSteerer.mdWeb)) thpUl =
      [1, 1, 1, 1, 1, 1, 1, 1, 1, 1] := rfl
  have hmdl : mean ([10, 10, 10, 10, 10, 10, 10, 10, 10, 10] : List ℚ) = 10 := by
    norm_num [mean]
  have hmul : mean ([1, 1, 1, 1, 1, 1, 1, 1, 1, 1] : List ℚ) = 1 := by
    norm_num [mean]
  apply classify_web_amended QoSTrafficSteerer.histWeb QoSTrafficSteerer.mdWeb
      _ _ hdl.symm hul.symm
  · rw [length_dequeAppend]
    norm_num [QoSTrafficSteerer.histWeb]
  · simp
  · simp
  · rintro ⟨hc, -, -, -⟩
    rw [hmdl] at hc
    norm_num at hc
  · rintro ⟨hc, -⟩
    rw [hmdl] at hc
    norm_num at hc
  · rintro ⟨hc, -⟩
    rw [hmul] at hc
    norm_num at hc
  · rw [hmdl]; norm_num
  · rw [hmdl]; norm_num

/-- C10: once an entity's traffic history already holds at least 10
entries, `classify_traffic` returns 'unknown' whenever the last-10-entry
aggregation produces no DL values or no UL values — regardless of the
metric that is present — and the snapshot is still appended to the
history before this check. -/
theorem classify_missing_direction :
    ∀ (hist : List MetricsData) (md : MetricsData),
      10 ≤ hist.length →
      (QoSTrafficSteerer.extract_throughputs
          (lastN 10 (dequeAppend 50 hist md)) thpDl = [] ∨
        QoSTrafficSteerer.extract_throughputs
          (lastN 10 (dequeAppend 50 hist md)) thpUl = []) →
      QoSTrafficSteerer.classify_traffic hist md =
        (QoSTrafficSteerer.TrafficType.unknown, dequeAppend 50 hist md) := by
  intro hist md h10 hempty
  have hlen : ¬ (dequeAppend 50 hist md).length < 10 := by
    rw [length_dequeAppend]
    omega
  simp only [QoSTrafficSteerer.classify_traffic]
  rw [if_neg hlen, if_pos hempty]

/-- Witness for C10: ten DL-only snapshots (DL 30, a downlink level that
the Video rule range covers) with no UL metric classify as 'unknown',
and the new snapshot is appended to the returned history. -/
theorem classify_missing_direction_witness :
    QoSTrafficSteerer.classify_traffic QoSTrafficSteerer.histDlOnly
        QoSTrafficSteerer.mdDlOnly =
      (QoSTrafficSteerer.TrafficType.unknown,
        dequeAppend 50 QoSTrafficSteerer.histDlOnly QoSTrafficSteerer.mdDlOnly) := by
  apply classify_missing_direction
  · norm_num [QoSTrafficSteerer.histDlOnly]
  · exact Or.inr rfl

namespace QoSTrafficSteerer

/-- Snapshot carrying only a connection-establishment success count of
200 (a count above 100 drives the load indicator negative). -/
def mdConnOnly : MetricsData := fun s => if s = connEstab then some [200] else none

/-- Snapshot with DL throughput 100 and connection success count 50. -/
def mdBoth : MetricsData :=
  fun s => if s = thpDl then some [100]
    else if s = connEstab then some [50] else none

end QoSTrafficSteerer

theorem load_indicator_le_one (md : MetricsData) :
    ∀ x ∈ QoSTrafficSteerer.load_indicators md, x ≤ 1 := by
  intro x hx
  unfold QoSTrafficSteerer.load_indicators at hx
  rw [List.mem_append, List.mem_append] at hx
  rcases hx with (hx | hx) | hx
  · revert hx
    cases md thpDl with
    | none => intro hx; exact absurd hx (List.not_mem_nil x)
    | some dl =>
      intro hx
      rw [List.mem_singleton] at hx
      rw [hx]
      exact min_le_right _ _
  · revert hx
    cases md thpUl with
    | none => intro hx; exact absurd hx (List.not_mem_nil x)
    | some ul =>
      intro hx
      rw [List.mem_singleton] at hx
      rw [hx]
      exact min_le_right _ _
  · revert hx
    cases md connEstab with
    | none => intro hx; exact absurd hx (List.not_mem_nil x)
    | some l =>
      intro hx
      rw [List.mem_singleton] at hx
      rw [hx]
      split_ifs with h
      · have hnn : (0 : ℚ) ≤ l.headD 0 / 100 := by positivity
        linarith
      · norm_num

theorem mean_le_one (l : List ℚ) (h : ∀ x ∈ l, x ≤ 1) : mean l ≤ 1 := by
  rcases eq_or_ne l [] with rfl | hne
  · simp [mean]
  · unfold mean
    have hlen : 0 < (l.length : ℚ) := by
      exact_mod_cast List.length_pos.mpr hne
    rw [div_le_one hlen]
    have hs := List.sum_le_card_nsmul l 1 h
    simpa [nsmul_eq_mul] using hs

/-- C3 counterexample: a sample whose only load-relevant metric is a
connection-establishment success count of 200 yields the indicator
`1 - 200/100 = -1`; the resulting cell load is `-1`, outside `[0, 1]`,
so the indicators are not clamped to `[0, 1]` as claimed. -/
theorem cell_load_counterexample :
    QoSTrafficSteerer.load_indicators QoSTrafficSteerer.mdConnOnly = [-1] ∧
      QoSTrafficSteerer.evaluate_cell_load QoSTrafficSteerer.mdConnOnly = -1 ∧
      QoSTrafficSteerer.evaluate_cell_load QoSTrafficSteerer.mdConnOnly < 0 := by
  have hli : QoSTrafficSteerer.load_indicators QoSTrafficSteerer.mdConnOnly
      = [-1] := by
    show [if (0 : ℚ) < (200 : ℚ) then 1 - (200 : ℚ) / 100 else 0] = [-1]
    norm_num
  refine ⟨hli, ?_, ?_⟩
  · unfold QoSTrafficSteerer.evaluate_cell_load
    rw [hli]
    norm_num [mean]
  · unfold QoSTrafficSteerer.evaluate_cell_load
    rw [hli]
    norm_num [mean]

/-- C3 amended: the cell load is the arithmetic mean of the per-metric
load indicators derived from the load-relevant metrics present in the
sample, each indicator is at most 1 (the throughput indicators are capped
above by `min · 1`, the connection indicator is `1 - rate/100` for a
positive rate and 0 otherwise), hence the load is at most 1; when no
load-relevant metric is present the load is 0.0 and no error is raised.
The indicators are not clamped below, so the load may be negative. -/
theorem cell_load_amended :
    ∀ md : MetricsData,
      (QoSTrafficSteerer.load_indicators md ≠ [] →
        QoSTrafficSteerer.evaluate_cell_load md =
          mean (QoSTrafficSteerer.load_indicators md)) ∧
      (∀ x ∈ QoSTrafficSteerer.load_indicators md, x ≤ 1) ∧
      QoSTrafficSteerer.evaluate_cell_load md ≤ 1 ∧
      (md thpDl = none → md thpUl = none → md connEstab = none →
        QoSTrafficSteerer.evaluate_cell_load md = 0) := by
  intro md
  refine ⟨?_, load_indicator_le_one md, ?_, ?_⟩
  · intro hne
    unfold QoSTrafficSteerer.evaluate_cell_load
    rw [if_neg hne]
  · unfold QoSTrafficSteerer.evaluate_cell_load
    split_ifs with h
    · norm_num
    · exact mean_le_one _ (load_indicator_le_one md)
  · intro h1 h2 h3
    unfold QoSTrafficSteerer.evaluate_cell_load
    rw [if_pos]
    unfold QoSTrafficSteerer.load_indicators
    rw [h1, h2, h3]
    rfl

/-- Witness for the amended C3: with DL 100 and connection rate 50 the
load is the mean of the two indicators and at most 1; with no
load-relevant metric the load is 0. -/
theorem cell_load_amended_witness :
    QoSTrafficSteerer.evaluate_cell_load QoSTrafficSteerer.mdBoth =
        mean (QoSTrafficSteerer.load_indicators QoSTrafficSteerer.mdBoth) ∧
      QoSTrafficSteerer.evaluate_cell_load QoSTrafficSteerer.mdBoth ≤ 1 ∧
      QoSTrafficSteerer.evaluate_cell_load (fun _ => none) = 0 := by
  refine ⟨(cell_load_amended QoSTrafficSteerer.mdBoth).1 ?_,
    (cell_load_amended QoSTrafficSteerer.mdBoth).2.2.1,
    (cell_load_amended (fun _ => none)).2.2.2 rfl rfl rfl⟩
  simp [QoSTrafficSteerer.load_indicators, QoSTrafficSteerer.mdBoth,
    thpDl, thpUl, connEstab]

/-- C7: for a known traffic type, `check_qos_violations` increments the
per-entity violation counter by exactly 1 and returns `true` exactly when
the summed DL throughput is below 50% of the profile's bandwidth floor or
the summed UL throughput is below 30% of it (one increment even if both
directions violate); otherwise, and for the 'unknown' type, it returns
`false` and leaves the counter untouched. -/
theorem qos_violation_counter :
    ∀ (t : QoSTrafficSteerer.TrafficType) (md : MetricsData) (violations : ℕ),
      (t = QoSTrafficSteerer.TrafficType.unknown →
        QoSTrafficSteerer.check_qos_violations t md violations =
          (false, violations)) ∧
      (∀ p, QoSTrafficSteerer.qos_profiles t = some p →
        (((∃ dl, md thpDl = some dl ∧ dl ≠ [] ∧
              dl.sum < p.bandwidth_mbps * (1 / 2)) ∨
            (∃ ul, md thpUl = some ul ∧ ul ≠ [] ∧
              ul.sum < p.bandwidth_mbps * (3 / 10))) →
          QoSTrafficSteerer.check_qos_violations t md violations =
            (true, violations + 1)) ∧
        (¬ ((∃ dl, md thpDl = some dl ∧ dl ≠ [] ∧
              dl.sum < p.bandwidth_mbps * (1 / 2)) ∨
            (∃ ul, md thpUl = some ul ∧ ul ≠ [] ∧
              ul.sum < p.bandwidth_mbps * (3 / 10))) →
          QoSTrafficSteerer.check_qos_violations t md violations =
            (false, violations))) := by
  intro t md violations
  constructor
  · intro ht
    subst ht
    unfold QoSTrafficSteerer.check_qos_violations
    rw [if_pos rfl]
  · intro p hp
    have ht : t ≠ QoSTrafficSteerer.TrafficType.unknown := by
      rintro rfl
      simp [QoSTrafficSteerer.qos_profiles] at hp
    cases hdl : md thpDl with
    | some dl =>
      cases hul : md thpUl with
      | some ul =>
        unfold QoSTrafficSteerer.check_qos_violations
        rw [if_neg ht]
        simp only [hp, hdl, hul]
        by_cases hdlv : dl ≠ [] ∧ dl.sum < p.bandwidth_mbps * (1 / 2)
        · rw [if_pos hdlv]
          exact ⟨fun _ => by trivial,
            fun hn => absurd (Or.inl ⟨dl, rfl, hdlv.1, hdlv.2⟩) hn⟩
        · rw [if_neg hdlv]
          by_cases hulv : ul ≠ [] ∧ ul.sum < p.bandwidth_mbps * (3 / 10)
          · rw [if_pos hulv]
            exact ⟨fun _ => by trivial,
              fun hn => absurd (Or.inr ⟨ul, rfl, hulv.1, hulv.2⟩) hn⟩
          · rw [if_neg hulv]
            refine ⟨fun hv => ?_, fun _ => by trivial⟩
            exfalso
            rcases hv with ⟨dl', hdl', hne, hlt⟩ | ⟨ul', hul', hne, hlt⟩
            · injection hdl' with h
              subst h
              exact hdlv ⟨hne, hlt⟩
            · injection hul' with h
              subst h
              exact hulv ⟨hne, hlt⟩
      | none =>
        unfold QoSTrafficSteerer.check_qos_violations
        rw [if_neg ht]
        simp only [hp, hdl, hul]
        by_cases hdlv : dl ≠ [] ∧ dl.sum < p.bandwidth_mbps * (1 / 2)
        · rw [if_pos hdlv]
          exact ⟨fun _ => by trivial,
            fun hn => absurd (Or.inl ⟨dl, rfl, hdlv.1, hdlv.2⟩) hn⟩
        · rw [if_neg hdlv]
          refine ⟨fun hv => ?_, fun _ => by trivial⟩
          exfalso
          rcases hv with ⟨dl', hdl', hne, hlt⟩ | ⟨ul', hul', -, -⟩
          · injection hdl' with h
            subst h
            exact hdlv ⟨hne, hlt⟩
          · exact Option.noConfusion hul'
    | none =>
      cases hul : md thpUl with
      | some ul =>
        unfold QoSTrafficSteerer.check_qos_violations
        rw [if_neg ht]
        simp only [hp, hdl, hul]
        by_cases hulv : ul ≠ [] ∧ ul.sum < p.bandwidth_mbps * (3 / 10)
        · rw [if_pos hulv]
          exact ⟨fun _ => by trivial,
            fun hn => absurd (Or.inr ⟨ul, rfl, hulv.1, hulv.2⟩) hn⟩
        · rw [if_neg hulv]
          refine ⟨fun hv => ?_, fun _ => by trivial⟩
          exfalso
          rcases hv with ⟨dl', hdl', -, -⟩ | ⟨ul', hul', hne, hlt⟩
          · exact Option.noConfusion hdl'
          · injection hul' with h
            subst h
            exact hulv ⟨hne, hlt⟩
      | none =>
        unfold QoSTrafficSteerer.check_qos_violations
        rw [if_neg ht]
        simp only [hp, hdl, hul]
        refine ⟨fun hv => ?_, fun _ => by trivial⟩
        exfalso
        rcases hv with ⟨dl', hdl', -, -⟩ | ⟨ul', hul', -, -⟩
        · exact Option.noConfusion hdl'
        · exact Option.noConfusion hul'

namespace QoSTrafficSteerer

/-- Snapshot whose DL throughput 0.01 is far below every profile's
bandwidth floor. -/
def mdLowDl : MetricsData := fun s => if s = thpDl then some [1 / 100] else none

end QoSTrafficSteerer

/-- Witness for C7: voice traffic with DL throughput 0.01 (below 50% of
the 0.1 Mbps floor) flags a violation and bumps the counter from 0 to 1;
'unknown' traffic leaves the counter at 5 and returns `false`. -/
theorem qos_violation_counter_witness :
    QoSTrafficSteerer.check_qos_violations QoSTrafficSteerer.TrafficType.voice
        QoSTrafficSteerer.mdLowDl 0 = (true, 1) ∧
      QoSTrafficSteerer.check_qos_violations QoSTrafficSteerer.TrafficType.unknown
        QoSTrafficSteerer.mdLowDl 5 = (false, 5) := by
  constructor
  · have h := (qos_violation_counter QoSTrafficSteerer.TrafficType.voice
        QoSTrafficSteerer.mdLowDl 0).2 ⟨10, 1 / 10, 1⟩ rfl
    exact h.1 (Or.inl ⟨[1 / 100], rfl, by simp,
      by norm_num [List.sum_cons, List.sum_nil]⟩)
  · exact (qos_violation_counter QoSTrafficSteerer.TrafficType.unknown
      QoSTrafficSteerer.mdLowDl 5).1 rfl

namespace MLResourceOptimizer

/-- `self.max_prb_ratio_low` of ml_resource_optimizer.py. -/
def max_prb_low : ℚ := 10

/-- `self.max_prb_ratio_high` of ml_resource_optimizer.py. -/
def max_prb_high : ℚ := 100

/-- The expression `m.get(key, [0])[0] if key in m else 0`: 0 when the
key is absent, the first stored value when present; `none` models the
IndexError raised when the key maps to an empty list. -/
def firstOrZero (m : MetricsData) (key : String) : Option ℚ :=
  match m key with
  | none => some 0
  | some l => l.head?

/-- Slicing a `collections.deque`: deques do not support slice indexing,
so every slice expression such as `history[-10:]`, `history[-3:]` or
`history[-6:-3]` raises `TypeError`; no value is ever produced. -/
def dequeSlice {α : Type} (_l : List α) : Option (List α) := none

/-- The feature-vector computation of `predict_prb_setting`: current
DL/UL from the snapshot, then the 10-sample rolling averages, the
short-term DL trend and the history length.  Each aggregate slices the
`ue_metrics_history` deque (`history[-10:]`, `history[-3:]`,
`history[-6:-3]`), and slicing a deque raises `TypeError`, so with
non-empty history the computation always fails right after reading the
current DL/UL values (which themselves raise IndexError, modelled
`none`, on a present-but-empty metric list). -/
def extract_features (history : List MetricsData) (metrics_data : MetricsData) :
    Option (List ℚ) := do
  let current_dl ← firstOrZero metrics_data thpDl
  let current_ul ← firstOrZero metrics_data thpUl
  let avg_dl ←
    if 0 < history.length then do
      let last10 ← dequeSlice history
      let dls ← last10.mapM (fun m => firstOrZero m thpDl)
      pure (mean dls)
    else pure (0 : ℚ)
  let avg_ul ←
    if 0 < history.length then do
      let last10 ← dequeSlice history
      let uls ← last10.mapM (fun m => firstOrZero m thpUl)
      pure (mean uls)
    else pure (0 : ℚ)
  let dl_trend ←
    if 5 < history.length then do
      let last3 ← dequeSlice history
      let recent ← last3.mapM (fun m => firstOrZero m thpDl)
      let mid3 ← dequeSlice history
      let older ← mid3.mapM (fun m => firstOrZero m thpDl)
      pure (mean recent - mean older)
    else pure (0 : ℚ)
  pure [current_dl, current_ul, avg_dl, avg_ul, dl_trend, (history.length : ℚ)]

/-- State of `MLResourceOptimizerXapp` relevant to prediction: the
trained flag, the per-UE metrics history, and the fitted scaler and
regression model (opaque functions, mutated only by `train_models`). -/
structure OptimizerState where
  model_trained : Bool
  ue_metrics_history : String → Option (List MetricsData)
  scaler_transform : List ℚ → List ℚ
  prb_predict : List ℚ → ℚ

/-- `predict_prb_setting`: the configured default (the high PRB bound)
when the model is untrained or the UE has no history; otherwise the
scaled feature vector is run through the regression model and the
continuous output is thresholded at the midpoint of the two bounds —
but feature extraction crashes first (see `extract_features`). -/
def predict_prb_setting (s : OptimizerState) (ue_id : String)
    (metrics_data : MetricsData) : Option ℚ :=
  if s.model_trained = false then some max_prb_high
  else
    match s.ue_metrics_history ue_id with
    | some history =>
      if 0 < history.length then
        match extract_features history metrics_data with
        | none => none
        | some features =>
          let predicted_prb := s.prb_predict (s.scaler_transform features)
          if (max_prb_high + max_prb_low) / 2 < predicted_prb then
            some max_prb_high
          else some max_prb_low
      else some max_prb_high
    | none => some max_prb_high

/-- Optimizer state with a trained model, one stored snapshot for "ue0",
the identity scaler and a regression model constantly predicting 60. -/
def trainedState : OptimizerState :=
  ⟨true, fun u => if u = "ue0" then some [fun _ => none] else none,
    fun fs => fs, fun _ => 60⟩

/-- Optimizer state whose model was never trained. -/
def untrainedState : OptimizerState :=
  ⟨false, fun _ => none, fun fs => fs, fun _ => 0⟩

end MLResourceOptimizer

theorem extract_features_crash (history : List MetricsData) (md : MetricsData)
    (hl : 0 < history.length) :
    MLResourceOptimizer.extract_features history md = none := by
  unfold MLResourceOptimizer.extract_features
  cases hd : MLResourceOptimizer.firstOrZero md thpDl with
  | none => simp [hd]
  | some a =>
    cases hu : MLResourceOptimizer.firstOrZero md thpUl with
    | none => simp [hd, hu]
    | some b =>
      simp [hd, hu, MLResourceOptimizer.dequeSlice, hl]

/-- C8: `predict_prb_setting` returns the configured default — the high
PRB bound — whenever the model is untrained or the entity has no stored
history, exactly as claimed; but on every call with a trained model and
non-empty history the source slices the `collections.deque` history
(`history[-10:]` and friends), which raises `TypeError` (modelled as
`none`) before the scaler, the regression model or the midpoint
comparison can run — so the claimed midpoint-thresholded low/high result
is never produced by the program, even though the thresholding code is
present immediately after the crashing lines. -/
theorem predict_prb_crash :
    ∀ (s : MLResourceOptimizer.OptimizerState) (ue_id : String)
      (md : MetricsData),
      ((s.model_trained = false ∨ s.ue_metrics_history ue_id = none ∨
          s.ue_metrics_history ue_id = some []) →
        MLResourceOptimizer.predict_prb_setting s ue_id md =
          some MLResourceOptimizer.max_prb_high) ∧
      (s.model_trained = true →
        ∀ history, s.ue_metrics_history ue_id = some history →
          0 < history.length →
          MLResourceOptimizer.predict_prb_setting s ue_id md = none) := by
  intro s ue_id md
  constructor
  · intro h
    unfold MLResourceOptimizer.predict_prb_setting
    rcases h with h | h | h
    · rw [if_pos h]
    · by_cases ht : s.model_trained = false
      · rw [if_pos ht]
      · rw [if_neg ht]
        simp only [h]
    · by_cases ht : s.model_trained = false
      · rw [if_pos ht]
      · rw [if_neg ht]
        simp only [h]
        rw [if_neg (by simp)]
  · intro ht history hh hl
    unfold MLResourceOptimizer.predict_prb_setting
    rw [if_neg (by simp [ht])]
    simp only [hh]
    rw [if_pos hl]
    simp only [extract_features_crash history md hl]

/-- Witness for C8: with a trained model and one stored snapshot for
"ue0" the call crashes (returns `none`, the modelled TypeError), never
reaching the midpoint comparison; with an untrained model it returns the
default high bound. -/
theorem predict_prb_crash_witness :
    MLResourceOptimizer.predict_prb_setting MLResourceOptimizer.trainedState
        "ue0" (fun _ => none) = none ∧
      MLResourceOptimizer.predict_prb_setting MLResourceOptimizer.untrainedState
        "ue0" (fun _ => none) = some MLResourceOptimizer.max_prb_high := by
  constructor
  · exact (predict_prb_crash MLResourceOptimizer.trainedState "ue0"
      (fun _ => none)).2 rfl [fun _ => none] rfl (by simp)
  · exact (predict_prb_crash MLResourceOptimizer.untrainedState "ue0"
      (fun _ => none)).1 (Or.inl rfl)
